import Mathlib

/-!
Shallow embedding of the Nukr.store "Database Engine" core
(`src/phase1.py`, with the order-status dropdown logic of `src/phase2.py`
and the checkout payment dictionary of `src/phase4.py`), together with
proofs of the testable properties stated in the specification.

Modelling conventions:
* Python dictionaries with a fixed key set become Lean structures.
* `uuid.uuid4()[:8]` identifiers and `datetime.now()` timestamps are
  environment inputs; each operation that consumes them takes them as
  explicit `String` parameters.
* Python `float` prices are modelled as `Int`: every price handled by the
  claims (and by the UI, which uses integer inputs) is an integer, and the
  only arithmetic performed on prices is addition.
* Exceptions become `Except NukrError`; `Database.add_vendor`, which
  signals failure by returning `False`, becomes a `Bool × Store` result.
* The filesystem seen by the backup/restore code is a pair of the data
  file's parse status and the backup directory's contents in file-name
  order (backup names embed a sortable timestamp, so name order equals
  creation order).
-/

namespace Nukr

/-! ## Configuration (`Config` in `src/phase1.py`) -/

namespace Config

def APP_NAME : String := "Nukr.store"

def VERSION : String := "3.0.0"

def CURRENCY_SYMBOL : String := "Rs."

def MAX_BACKUPS : Nat := 15

def DEFAULT_CATEGORIES : List String :=
  ["Jewelry", "Crochet", "Clothes", "Toys",
   "Watches", "Home Decor", "Art & Craft",
   "Accessories", "Footwear", "Beauty"]

end Config

/-! ## Errors (`src/phase1.py` section 3)

The source defines `NukrError` with subclasses `DatabaseError`
(read/write failures) and `ValidationError` (schema violations).
There is no separate not-found error class. -/

inductive NukrError where
  | databaseError (msg : String)
  | validationError (msg : String)
deriving DecidableEq, Repr

/-- The error `Database._save` raises when a write fails
(`raise DatabaseError(f"Could not save data: {e}")`, `src/phase1.py:201`). -/
def save_failure (e : String) : NukrError :=
  NukrError.databaseError ("Could not save data: " ++ e)

/-- `true` when the two errors are instances of the same exception class. -/
def sameErrorClass : NukrError → NukrError → Bool
  | NukrError.databaseError _, NukrError.databaseError _ => true
  | NukrError.validationError _, NukrError.validationError _ => true
  | _, _ => false

/-! ## Data model -/

/-- A vendor record as built by `Database.add_vendor`. -/
structure Vendor where
  id : String
  name : String
  insta : String
  bank : String
  joined_at : String
  status : String
deriving DecidableEq, Repr

/-- A product record as built by `Database.add_product`. -/
structure Product where
  id : String
  vendor : String
  name : String
  category : String
  price : Int
  image : String
  active : Bool
  created_at : String
deriving DecidableEq, Repr

/-- The `product_snapshot` dictionary of an order. -/
structure Snapshot where
  id : String
  name : String
  price : Int
  vendor : String
deriving DecidableEq, Repr

/-- The `customer` dictionary of an order. -/
structure Customer where
  name : String
  phone : String
  address : String
deriving DecidableEq, Repr

/-- The `payment` dictionary of an order. -/
structure Payment where
  method : String
  proof : Option String
  is_verified : Bool
deriving DecidableEq, Repr

/-- The `payment_method` argument of `Database.create_order`: a dictionary
with keys `type` and `proof_file` (see `src/phase4.py:407`). -/
structure PaymentMethod where
  type : String
  proof_file : Option String
deriving DecidableEq, Repr

/-- An order record as built by `Database.create_order`. -/
structure Order where
  id : String
  timestamp : String
  product_snapshot : Snapshot
  customer : Customer
  payment : Payment
  status : String
  history : List String
deriving DecidableEq, Repr

/-- The `meta` dictionary of the store document. -/
structure Meta where
  created_at : String
  version : String
  last_backup : Option String
deriving DecidableEq, Repr

/-- The whole persisted document (`Database._get_default_schema` lists its
top-level keys).  `users` is future-proofing and is never populated. -/
structure Store where
  meta : Meta
  vendors : List Vendor
  products : List Product
  orders : List Order
  categories : List String
  users : List String
deriving DecidableEq, Repr

/-- `Database._get_default_schema` (`src/phase1.py:121`); `now` stands for
`datetime.now()`. -/
def default_schema (now : String) : Store :=
  { meta := { created_at := now, version := Config.VERSION, last_backup := none },
    vendors := [],
    products := [],
    orders := [],
    categories := Config.DEFAULT_CATEGORIES,
    users := [] }

/-! ## Domain operations (`src/phase1.py` CRUD section)

Each operation follows the source's load → mutate → save pattern; since a
successful `_save` only writes the mutated document back, the operations
are functions from the loaded `Store` to the saved `Store`. -/

/-- Python's `str.lower()` on one character, for the ASCII range (the
characters the repository's vendor names use). -/
def charLower (c : Char) : Char :=
  if 'A' ≤ c ∧ c ≤ 'Z' then Char.ofNat (c.toNat + 32) else c

/-- Python's `str.lower()`: lower-case every character. -/
def strLower (s : String) : String :=
  String.mk (s.data.map charLower)

/-- `Database.add_vendor` (`src/phase1.py:250`): rejects case-insensitive
duplicate names by returning `False` with the store untouched; otherwise
appends the new vendor and returns `True`.  `vid` stands for
`str(uuid.uuid4())[:8]` and `ts` for `str(datetime.now())`. -/
def add_vendor (s : Store) (name insta bank : String) (vid ts : String) :
    Bool × Store :=
  if s.vendors.any (fun v => strLower v.name == strLower name) then
    (false, s)
  else
    (true,
      { s with vendors := s.vendors ++
          [{ id := vid, name := name, insta := insta, bank := bank,
             joined_at := ts, status := "Active" }] })

/-- `Database.add_product` (`src/phase1.py:273`): raises `ValidationError`
for a negative price before touching the store, otherwise appends the new
product. -/
def add_product (s : Store) (vendor_name name category : String)
    (price : Int) (image : String) (pid ts : String) :
    Except NukrError Store :=
  if price < 0 then
    Except.error (NukrError.validationError "Price cannot be negative.")
  else
    Except.ok
      { s with products := s.products ++
          [{ id := pid, vendor := vendor_name, name := name,
             category := category, price := price, image := image,
             active := true, created_at := ts }] }

/-- `Database.create_order` (`src/phase1.py:295`): copies the product's
`id`/`name`/`price`/`vendor` fields into an immutable snapshot, appends a
`"Pending"` order with a single history line, and returns the order id. -/
def create_order (s : Store) (product_obj : Product)
    (customer_data : Customer) (payment_method : PaymentMethod)
    (oid ts : String) : String × Store :=
  let new_order : Order :=
    { id := oid,
      timestamp := ts,
      product_snapshot :=
        { id := product_obj.id, name := product_obj.name,
          price := product_obj.price, vendor := product_obj.vendor },
      customer := customer_data,
      payment :=
        { method := payment_method.type,
          proof := payment_method.proof_file, is_verified := false },
      status := "Pending",
      history := ["Order placed on " ++ ts] }
  (oid, { s with orders := s.orders ++ [new_order] })

/-- The history line `Database.update_order_status` appends. -/
def transitionEntry (old_status new_status ts : String) : String :=
  "Status changed from " ++ old_status ++ " to " ++ new_status ++ " on " ++ ts

/-- The loop body of `Database.update_order_status`: walk the order list,
rewrite the first order whose id matches (new status, history line
appended) and stop; report whether a match was found. -/
def updateOrderList (oid new_status ts : String) :
    List Order → List Order × Bool
  | [] => ([], false)
  | o :: rest =>
    if o.id == oid then
      ({ o with
          status := new_status,
          history := o.history ++ [transitionEntry o.status new_status ts] }
        :: rest, true)
    else
      let r := updateOrderList oid new_status ts rest
      (o :: r.1, r.2)

/-- `Database.update_order_status` (`src/phase1.py:341`): rewrites the
first matching order and saves; raises `DatabaseError("Order ID not
found.")` when no order has the given id. -/
def update_order_status (s : Store) (oid new_status ts : String) :
    Except NukrError Store :=
  let r := updateOrderList oid new_status ts s.orders
  if r.2 then
    Except.ok { s with orders := r.1 }
  else
    Except.error (NukrError.databaseError "Order ID not found.")

/-- The loop body of `Database.soft_delete_product`: clear the `active`
flag of the first product whose id matches and stop. -/
def softDeleteList (pid : String) : List Product → List Product
  | [] => []
  | p :: rest =>
    if p.id == pid then
      { p with active := false } :: rest
    else
      p :: softDeleteList pid rest

/-- `Database.soft_delete_product` (`src/phase1.py:359`): marks the first
matching product inactive; silently saves the unchanged store when the id
is absent. -/
def soft_delete_product (s : Store) (pid : String) : Store :=
  { s with products := softDeleteList pid s.products }

/-- The seller dashboard's save-changes handler (`src/phase2.py:183`):
overwrite the matched product's `name` and `price` fields and save. -/
def editProductList (pid new_name : String) (new_price : Int) :
    List Product → List Product
  | [] => []
  | p :: rest =>
    if p.id == pid then
      { p with name := new_name, price := new_price } :: rest
    else
      p :: editProductList pid new_name new_price rest

/-- Editing a product from the seller dashboard (`src/phase2.py:183`). -/
def edit_product (s : Store) (pid new_name : String) (new_price : Int) :
    Store :=
  { s with products := editProductList pid new_name new_price s.products }

/-! ## Helpers (`src/phase1.py` section 5) -/

/-- The result dictionary of `get_vendor_stats`. -/
structure VendorStats where
  sales : Int
  count : Nat
  pending : Nat
deriving DecidableEq, Repr

/-- `get_vendor_stats` (`src/phase1.py:379`): pure aggregation over the
orders whose snapshot names the vendor. -/
def get_vendor_stats (s : Store) (vendor_name : String) : VendorStats :=
  let orders := s.orders.filter
    (fun o => o.product_snapshot.vendor == vendor_name)
  { sales := (orders.map (fun o => o.product_snapshot.price)).sum,
    count := orders.length,
    pending := (orders.filter (fun o => o.status == "Pending")).length }

/-- The argument of `format_currency`: Python's `int(amount)` either
yields an integer (`num`, already truncated) or raises
(`nonNumeric`), in which case the bare `except` returns the zero string. -/
inductive Amount where
  | num (n : Int)
  | nonNumeric
deriving DecidableEq, Repr

/-- Group a reversed digit list into blocks of three, least-significant
block first — the grouping performed by Python's `{:,}` format spec. -/
def chunk3 : List Char → List (List Char)
  | [] => []
  | [a] => [[a]]
  | [a, b] => [[a, b]]
  | a :: b :: c :: rest => [a, b, c] :: chunk3 rest

/-- The decimal digits of `n` with a comma every three digits, as Python's
`f"{n:,}"` renders a natural number. -/
def natComma (n : Nat) : String :=
  String.mk ((((chunk3 (toString n).toList.reverse).intersperse [',']).flatten).reverse)

/-- Python's `f"{n:,}"` for an integer: minus sign, then grouped digits. -/
def intComma (n : Int) : String :=
  (if n < 0 then "-" else "") ++ natComma n.natAbs

/-- `format_currency` (`src/phase1.py:372`):
`f"{Config.CURRENCY_SYMBOL} {int(amount):,}"`, with the bare `except`
returning `f"{Config.CURRENCY_SYMBOL} 0"` when `int(amount)` raises. -/
def format_currency (amount : Amount) : String :=
  match amount with
  | Amount.num n => Config.CURRENCY_SYMBOL ++ " " ++ intComma n
  | Amount.nonNumeric => Config.CURRENCY_SYMBOL ++ " 0"

/-- The order-status dropdown logic of the seller dashboard
(`src/phase2.py:271`): the next states offered for an order's current
status. -/
def possible_next_states (current_s : String) : List String :=
  if current_s == "Pending" then ["Shipped", "Cancelled"]
  else if current_s == "Shipped" then ["Completed", "Return/Refund"]
  else []

/-- Modelled from the spec: the legal-transition table of §4.5, written
down independently for comparison with the source's dropdown logic —
Pending → Shipped or Cancelled; Shipped → Completed or Return/Refund;
Completed, Cancelled and Return/Refund are terminal. -/
def specNextStates (st : String) : List String :=
  if st = "Pending" then ["Shipped", "Cancelled"]
  else if st = "Shipped" then ["Completed", "Return/Refund"]
  else []

/-- `true` exactly when an `Except` result is a success. -/
def okB {ε α : Type} : Except ε α → Bool
  | Except.ok _ => true
  | Except.error _ => false

/-! ## Persistence layer (`src/phase1.py` core I/O and backup system)

The data file is modelled by its parse status: `Doc.valid s` is a file
whose bytes `json.load` parses to the document `s`; `Doc.garbage` is a
file whose bytes fail to parse.  The backup directory is the list of its
files in name order, which — backup names embedding a sortable
timestamp — is also creation order and modification-time order. -/

/-- A file of the store's on-disk format: parseable or not. -/
inductive Doc where
  | valid (s : Store)
  | garbage
deriving DecidableEq, Repr

/-- The filesystem as the persistence code sees it: the data file (absent
when `none`) and the backup directory's files in name order. -/
structure FS where
  file : Option Doc
  backups : List Doc
deriving DecidableEq, Repr

/-- `Database.load` (`src/phase1.py:171`): return the parsed document;
any failure (missing file, unparseable bytes) is caught and answered with
the default schema.  `now` stands for `datetime.now()`. -/
def load (fs : FS) (now : String) : Store :=
  match fs.file with
  | some (Doc.valid s) => s
  | _ => default_schema now

/-- The rotation loop of `Database._create_backup`
(`while len(backups) > Config.MAX_BACKUPS: remove oldest`). -/
def pruneOldest : List Doc → List Doc
  | [] => []
  | b :: rest =>
    if rest.length + 1 > Config.MAX_BACKUPS then pruneOldest rest
    else b :: rest

/-- `Database._create_backup` (`src/phase1.py:205`): copy the current
data file into the backup directory, then prune the oldest backups down
to the retention limit.  When the data file does not exist, `shutil.copy2`
raises, the exception is caught and logged, and — the rotation code being
inside the same `try` — nothing changes. -/
def create_backup (fs : FS) : FS :=
  match fs.file with
  | none => fs
  | some d => { fs with backups := pruneOldest (fs.backups ++ [d]) }

/-- `Database._save` (`src/phase1.py:180`): under the process-wide lock,
back up the current file, then overwrite it with the new document.  The
lock serializes writers and is invisible to this sequential model; a
failing write raises `save_failure` and is not modelled (the model's
writes succeed). -/
def save (fs : FS) (data : Store) : FS :=
  let fs1 := create_backup fs
  { fs1 with file := some (Doc.valid data) }

/-- `Database.restore_latest_backup` (`src/phase1.py:231`): copy the
name-wise last backup over the data file; with no backup directory or an
empty one, reset the data file to the default schema via `_save`. -/
def restore_latest_backup (fs : FS) (now : String) : FS :=
  match fs.backups.getLast? with
  | some latest => { fs with file := some latest }
  | none => save fs (default_schema now)

/-- `Database._ensure_integrity` (`src/phase1.py:136`), run once at
startup: create the file when missing; when it parses, add missing
top-level keys (invisible here: a parsed `Store` of this model carries
every key, so the migration loop finds nothing to add and does not
write); when parsing fails, restore from the latest backup. -/
def ensure_integrity (fs : FS) (now : String) : FS :=
  match fs.file with
  | none => save fs (default_schema now)
  | some (Doc.valid _) => fs
  | some Doc.garbage => restore_latest_backup fs now

/-- A sequence of `_save` calls with the given documents, in order — the
write traffic of a session. -/
def saveSeq (fs : FS) : List Store → FS
  | [] => fs
  | d :: ds => saveSeq (save fs d) ds

/-! ## Lemmas about the order-update loop -/

/-- The loop reports a match exactly when some order has the id. -/
lemma updateOrderList_found_eq_any (oid ns ts : String) :
    ∀ l : List Order,
      (updateOrderList oid ns ts l).2 = l.any (fun o => o.id == oid) := by
  intro l
  induction l with
  | nil => rfl
  | cons o rest ih =>
    cases hb : (o.id == oid) with
    | true => simp [updateOrderList, hb]
    | false => simp [updateOrderList, hb, ih]

/-- When no order has the id, the loop leaves the list untouched. -/
lemma updateOrderList_not_found (oid ns ts : String) :
    ∀ l : List Order, l.any (fun o => o.id == oid) = false →
      (updateOrderList oid ns ts l).1 = l := by
  intro l
  induction l with
  | nil => intro _; rfl
  | cons o rest ih =>
    intro h
    rw [List.any_cons] at h
    cases hb : (o.id == oid) with
    | true => rw [hb] at h; simp at h
    | false =>
      rw [hb] at h
      simp only [Bool.false_or] at h
      simp [updateOrderList, hb, ih h]

/-- When the loop reports a match, the list splits around the first
matched order, which is rewritten in place. -/
lemma updateOrderList_split (oid ns ts : String) :
    ∀ l : List Order, (updateOrderList oid ns ts l).2 = true →
      ∃ pre o post, l = pre ++ o :: post ∧
        (updateOrderList oid ns ts l).1 = pre ++
          ({ o with
              status := ns,
              history := o.history ++ [transitionEntry o.status ns ts] }
            :: post) := by
  intro l
  induction l with
  | nil => intro h; simp [updateOrderList] at h
  | cons o rest ih =>
    intro h
    cases hb : (o.id == oid) with
    | true =>
      refine ⟨[], o, rest, rfl, ?_⟩
      simp [updateOrderList, hb]
    | false =>
      rw [updateOrderList, hb] at h
      simp only [Bool.if_false_left] at h
      obtain ⟨pre, o', post, hsplit, hres⟩ := ih (by simpa using h)
      refine ⟨o :: pre, o', post, by rw [hsplit]; rfl, ?_⟩
      simp [updateOrderList, hb, hres]

/-- The loop preserves the length of the order list. -/
lemma updateOrderList_length (oid ns ts : String) :
    ∀ l : List Order, ((updateOrderList oid ns ts l).1).length = l.length := by
  intro l
  induction l with
  | nil => rfl
  | cons o rest ih =>
    cases hb : (o.id == oid) with
    | true => simp [updateOrderList, hb]
    | false => simp [updateOrderList, hb, ih]

/-! ## Claim C1: status-transition legality -/

/-- A concrete order sitting in the terminal state `"Completed"`. -/
def c1_order : Order :=
  { id := "o1", timestamp := "t1",
    product_snapshot := { id := "p1", name := "Mug", price := 500, vendor := "Acme" },
    customer := { name := "Ali", phone := "0300-1234567", address := "addr" },
    payment := { method := "COD", proof := none, is_verified := false },
    status := "Completed",
    history := ["Order placed on t1"] }

/-- A store holding only `c1_order`. -/
def c1_store : Store :=
  { default_schema "t0" with orders := [c1_order] }

/-- What the call of `c1_counterexample` actually produces: the terminal
order moved back to `"Pending"`, history extended. -/
def c1_store_after : Store :=
  { default_schema "t0" with orders :=
      [{ c1_order with
          status := "Pending",
          history := c1_order.history ++
            [transitionEntry "Completed" "Pending" "t9"] }] }

/-- C1 (counterexample): on an order in the terminal state `"Completed"`,
`update_order_status` to `"Pending"` does not fail with any error — it
succeeds and rewrites both `status` and `history`, so the core does not
reject transitions outside the table. -/
theorem c1_counterexample :
    update_order_status c1_store "o1" "Pending" "t9" = Except.ok c1_store_after ∧
    c1_store.orders.map Order.status = ["Completed"] ∧
    c1_store_after.orders.map Order.status = ["Pending"] := by
  refine ⟨rfl, rfl, rfl⟩

/-- C1 (amended): the core layer enforces no transition table at all —
`update_order_status` succeeds exactly when the order id exists, whatever
the current and requested statuses are.  The legal-transition table of
the spec lives only in the seller dashboard's dropdown logic:
`possible_next_states` offers exactly the spec's successors
(Pending → Shipped/Cancelled, Shipped → Completed/Return-Refund) and
offers nothing from any other state. -/
theorem c1_amended :
    (∀ st : String, possible_next_states st = specNextStates st) ∧
    (∀ (s : Store) (oid ns ts : String),
      okB (update_order_status s oid ns ts)
        = s.orders.any (fun o => o.id == oid)) := by
  constructor
  · intro st
    by_cases h1 : st = "Pending"
    · simp [possible_next_states, specNextStates, h1]
    · by_cases h2 : st = "Shipped" <;>
        simp [possible_next_states, specNextStates, h1, h2]
  · intro s oid ns ts
    rw [← updateOrderList_found_eq_any oid ns ts s.orders]
    unfold update_order_status
    cases h : (updateOrderList oid ns ts s.orders).2 <;> simp [okB, h]

/-! ## Claim C7: missing order id -/

/-- C7 (counterexample): for an absent order id the call does fail and
the store is untouched, but the error raised is
`DatabaseError("Order ID not found.")` — an instance of the very same
exception class that storage failures (`save_failure`) raise, not a
not-found error distinct from a storage failure. -/
theorem c7_counterexample :
    update_order_status (default_schema "t0") "missing" "Shipped" "t1"
        = Except.error (NukrError.databaseError "Order ID not found.") ∧
    sameErrorClass (NukrError.databaseError "Order ID not found.")
        (save_failure "disk full") = true := by
  refine ⟨rfl, rfl⟩

/-- C7 (amended): for every order id not present in the store,
`update_order_status` fails with `DatabaseError("Order ID not found.")` —
the code reuses its storage-failure class, distinguished only by the
message — and the store is unchanged: the order list the loop produced is
exactly the original one (no status change, no history entry), and the
raise happens before any save. -/
theorem c7_amended :
    ∀ (s : Store) (oid ns ts : String),
      s.orders.any (fun o => o.id == oid) = false →
      update_order_status s oid ns ts
          = Except.error (NukrError.databaseError "Order ID not found.") ∧
      (updateOrderList oid ns ts s.orders).1 = s.orders := by
  intro s oid ns ts h
  have hf : (updateOrderList oid ns ts s.orders).2 = false := by
    rw [updateOrderList_found_eq_any]; exact h
  refine ⟨?_, updateOrderList_not_found oid ns ts s.orders h⟩
  unfold update_order_status
  simp [hf]

/-- C7 (witness): the amended theorem applied at a concrete input — the
default store has no orders, so any id is absent. -/
theorem c7_amended_witness :
    ((default_schema "t0").orders.any (fun o => o.id == "missing") = false) ∧
    update_order_status (default_schema "t0") "missing" "Shipped" "t1"
        = Except.error (NukrError.databaseError "Order ID not found.") :=
  ⟨rfl, (c7_amended (default_schema "t0") "missing" "Shipped" "t1" rfl).1⟩

/-! ## Claim C2: vendor-name uniqueness -/

/-- No two vendors of the list share a case-insensitive name. -/
def vendorNamesDistinct (vs : List Vendor) : Prop :=
  vs.Pairwise (fun a b => strLower a.name ≠ strLower b.name)

/-- One `registerVendor` call's inputs (name, insta handle, bank info,
generated id, timestamp). -/
structure RegCall where
  name : String
  insta : String
  bank : String
  vid : String
  ts : String

/-- A sequence of `Database.add_vendor` calls applied in order; the
boolean results are discarded. -/
def applyRegCalls (s : Store) : List RegCall → Store
  | [] => s
  | c :: cs => applyRegCalls (add_vendor s c.name c.insta c.bank c.vid c.ts).2 cs

/-- The vendor record `add_vendor` appends. -/
def newVendor (nm insta bank vid ts : String) : Vendor :=
  { id := vid, name := nm, insta := insta, bank := bank,
    joined_at := ts, status := "Active" }

/-- `add_vendor` only ever touches the `vendors` field by appending. -/
lemma add_vendor_preserves_distinct (s : Store) (nm insta bank vid ts : String)
    (h : vendorNamesDistinct s.vendors) :
    vendorNamesDistinct ((add_vendor s nm insta bank vid ts).2).vendors := by
  unfold add_vendor
  by_cases hc : s.vendors.any (fun v => strLower v.name == strLower nm) = true
  · rw [if_pos hc]
    exact h
  · rw [if_neg hc]
    have hc' : s.vendors.any (fun v => strLower v.name == strLower nm) = false := by
      simpa using hc
    rw [vendorNamesDistinct]
    dsimp only
    rw [List.pairwise_append]
    refine ⟨h, List.pairwise_singleton _ _, ?_⟩
    intro a ha b hb
    have hb' : b = newVendor nm insta bank vid ts := by simpa [newVendor] using hb
    subst hb'
    have := List.any_eq_false.mp hc' a ha
    simpa [newVendor] using this

/-- The uniqueness invariant is preserved by every call sequence. -/
lemma applyRegCalls_distinct :
    ∀ (cs : List RegCall) (s : Store), vendorNamesDistinct s.vendors →
      vendorNamesDistinct (applyRegCalls s cs).vendors := by
  intro cs
  induction cs with
  | nil => intro s h; exact h
  | cons c cs ih =>
    intro s h
    exact ih _ (add_vendor_preserves_distinct s c.name c.insta c.bank c.vid c.ts h)

/-- C2: starting from the default store, every sequence of
`registerVendor` calls leaves the vendor list free of case-insensitive
duplicate names; and whenever a call's name case-insensitively equals an
existing vendor's name, the call fails (returns `False`, the engine's
duplicate-name failure) and the store is returned unchanged — no vendor
appended, nothing new persisted. -/
theorem c2_vendor_uniqueness :
    (∀ (now : String) (cs : List RegCall),
      vendorNamesDistinct (applyRegCalls (default_schema now) cs).vendors) ∧
    (∀ (s : Store) (nm insta bank vid ts : String),
      (∃ v ∈ s.vendors, strLower v.name = strLower nm) →
      add_vendor s nm insta bank vid ts = (false, s)) := by
  constructor
  · intro now cs
    exact applyRegCalls_distinct cs (default_schema now)
      (by simp [default_schema, vendorNamesDistinct])
  · intro s nm insta bank vid ts h
    obtain ⟨v, hv, hname⟩ := h
    have hc : s.vendors.any (fun v => strLower v.name == strLower nm) = true := by
      rw [List.any_eq_true]
      exact ⟨v, hv, by simpa using hname⟩
    unfold add_vendor
    rw [if_pos hc]

/-- A vendor named `"Acme"`. -/
def c2_vendor : Vendor :=
  { id := "v1", name := "Acme", insta := "@acme", bank := "Bank: X",
    joined_at := "t1", status := "Active" }

/-- A store already holding `c2_vendor`. -/
def c2_dup_store : Store :=
  { default_schema "t0" with vendors := [c2_vendor] }

/-- C2 (witness): registering `"ACME"` against `c2_dup_store` hits the
duplicate branch and leaves the store unchanged. -/
theorem c2_vendor_uniqueness_witness :
    (∃ v ∈ c2_dup_store.vendors, strLower v.name = strLower "ACME") ∧
    add_vendor c2_dup_store "ACME" "@x" "Bank: Y" "v2" "t2"
      = (false, c2_dup_store) :=
  ⟨⟨c2_vendor, by simp [c2_dup_store], by decide⟩,
    c2_vendor_uniqueness.2 c2_dup_store "ACME" "@x" "Bank: Y" "v2" "t2"
      ⟨c2_vendor, by simp [c2_dup_store], by decide⟩⟩

/-! ## Claim C3: snapshot immutability -/

/-- A later mutation of the product catalogue: the seller dashboard's
edit (overwrite `name`/`price`) or a soft delete. -/
inductive ProdOp where
  | edit (pid new_name : String) (new_price : Int)
  | softDel (pid : String)

/-- Apply one product mutation. -/
def applyProdOp (s : Store) : ProdOp → Store
  | ProdOp.edit pid nm pr => edit_product s pid nm pr
  | ProdOp.softDel pid => soft_delete_product s pid

/-- Apply a sequence of product mutations in order. -/
def applyProdOps (s : Store) : List ProdOp → Store
  | [] => s
  | op :: ops => applyProdOps (applyProdOp s op) ops

/-- Product edits and soft deletes never touch the order list. -/
lemma applyProdOps_orders :
    ∀ (ops : List ProdOp) (s : Store), (applyProdOps s ops).orders = s.orders := by
  intro ops
  induction ops with
  | nil => intro s; rfl
  | cons op ops ih =>
    intro s
    rw [applyProdOps, ih]
    cases op <;> rfl

/-- The order record `create_order` appends: field-for-field copy of the
product into the snapshot, the customer and payment details, status
`"Pending"`, one history line. -/
def newOrder (p : Product) (c : Customer) (pm : PaymentMethod)
    (oid ts : String) : Order :=
  { id := oid,
    timestamp := ts,
    product_snapshot :=
      { id := p.id, name := p.name, price := p.price, vendor := p.vendor },
    customer := c,
    payment := { method := pm.type, proof := pm.proof_file, is_verified := false },
    status := "Pending",
    history := ["Order placed on " ++ ts] }

/-- C3: after `create_order` builds an order from a product, any later
sequence of edits or soft deletes of products — the source one included —
leaves every order, and so every `product_snapshot` field (id, name,
price, vendor name), exactly as at creation; and `create_order` itself
never mutates the product catalogue. -/
theorem c3_snapshot_immutable :
    ∀ (s : Store) (p : Product) (c : Customer) (pm : PaymentMethod)
      (oid ts : String) (ops : List ProdOp),
      (applyProdOps (create_order s p c pm oid ts).2 ops).orders
          = s.orders ++ [newOrder p c pm oid ts] ∧
      (create_order s p c pm oid ts).2.products = s.products := by
  intro s p c pm oid ts ops
  refine ⟨?_, rfl⟩
  rw [applyProdOps_orders]
  rfl

/-! ## Claim C4: corruption recovery -/

/-- A non-default store to put in a backup (one registered vendor). -/
def c4_backup_store : Store :=
  { default_schema "tb" with vendors :=
      [{ id := "v1", name := "Acme", insta := "@acme", bank := "Bank: X",
         joined_at := "tb", status := "Active" }] }

/-- A filesystem whose data file is unparseable while a valid backup is
present. -/
def c4_fs : FS :=
  { file := some Doc.garbage, backups := [Doc.valid c4_backup_store] }

/-- C4 (counterexample): with the persisted document replaced by
unparseable bytes and a valid backup present, `Database.load` does not
return the backup's content — it returns the default schema, because
`load` swallows the decode failure itself and never consults the backup
directory (restoration lives only in the startup integrity check). -/
theorem c4_counterexample :
    c4_fs.backups = [Doc.valid c4_backup_store] ∧
    load c4_fs "t0" = default_schema "t0" ∧
    load c4_fs "t0" ≠ c4_backup_store := by
  refine ⟨rfl, rfl, by decide⟩

/-- C4 (amended): `load` never fails — it returns the parsed document
when the file parses and otherwise degrades to the default schema without
consulting backups.  Restoration from backups happens in the startup
integrity check (`_ensure_integrity` → `restore_latest_backup`): when the
document is unparseable and the newest backup parses to a store `b`, the
integrity check rewrites the document from that backup, after which
`load` returns `b`; when the document is unparseable and no backup
exists, the integrity check resets the document to the default schema
(and `load` then returns it). -/
theorem c4_amended :
    (∀ (fs : FS) (now : String) (s : Store),
      fs.file = some (Doc.valid s) → load fs now = s) ∧
    (∀ (fs : FS) (now : String),
      fs.file = some Doc.garbage ∨ fs.file = none →
      load fs now = default_schema now) ∧
    (∀ (fs : FS) (now : String) (b : Store),
      fs.file = some Doc.garbage →
      fs.backups.getLast? = some (Doc.valid b) →
      load (ensure_integrity fs now) now = b) ∧
    (∀ (fs : FS) (now : String),
      fs.file = some Doc.garbage →
      fs.backups = [] →
      load (ensure_integrity fs now) now = default_schema now) := by
  refine ⟨?_, ?_, ?_, ?_⟩
  · intro fs now s h
    rw [load, h]
  · intro fs now h
    cases h with
    | inl h => rw [load, h]
    | inr h => rw [load, h]
  · intro fs now b hfile hlast
    rw [ensure_integrity, hfile, restore_latest_backup, hlast]
    rfl
  · intro fs now hfile hempty
    rw [ensure_integrity, hfile, restore_latest_backup, hempty]
    rfl

/-- C4 (witness): the amended theorem's restoration clause at the
concrete corrupted filesystem `c4_fs`. -/
theorem c4_amended_witness :
    c4_fs.file = some Doc.garbage ∧
    c4_fs.backups.getLast? = some (Doc.valid c4_backup_store) ∧
    load (ensure_integrity c4_fs "t0") "t0" = c4_backup_store :=
  ⟨rfl, rfl, c4_amended.2.2.1 c4_fs "t0" c4_backup_store rfl rfl⟩

/-! ## Claim C5: backup retention -/

/-- The rotation loop keeps exactly the newest `MAX_BACKUPS` files: it is
dropping from the front down to the limit. -/
lemma pruneOldest_eq_drop :
    ∀ l : List Doc, pruneOldest l = l.drop (l.length - Config.MAX_BACKUPS) := by
  intro l
  induction l with
  | nil => rfl
  | cons b rest ih =>
    rw [pruneOldest]
    by_cases h : rest.length + 1 > Config.MAX_BACKUPS
    · rw [if_pos h, ih]
      have h1 : (b :: rest).length - Config.MAX_BACKUPS
          = (rest.length - Config.MAX_BACKUPS) + 1 := by
        simp only [List.length_cons]
        omega
      rw [h1, List.drop_succ_cons]
    · rw [if_neg h]
      have h1 : (b :: rest).length - Config.MAX_BACKUPS = 0 := by
        simp only [List.length_cons]
        omega
      rw [h1, List.drop_zero]

/-- Rotation never keeps more than the retention limit. -/
lemma pruneOldest_length_le (l : List Doc) :
    (pruneOldest l).length ≤ Config.MAX_BACKUPS := by
  rw [pruneOldest_eq_drop, List.length_drop]
  omega

/-- Pruning, appending more, and pruning again is the same as appending
and pruning once: rotation only ever discards from the front. -/
lemma pruneOldest_pruneOldest_append (l xs : List Doc) :
    pruneOldest (pruneOldest l ++ xs) = pruneOldest (l ++ xs) := by
  by_cases h : l.length ≤ Config.MAX_BACKUPS
  · rw [pruneOldest_eq_drop l]
    have h0 : l.length - Config.MAX_BACKUPS = 0 := by omega
    rw [h0, List.drop_zero]
  · have hk : l.length - Config.MAX_BACKUPS ≤ l.length := by omega
    rw [pruneOldest_eq_drop l, ← List.drop_append_of_le_length hk,
      pruneOldest_eq_drop ((l ++ xs).drop (l.length - Config.MAX_BACKUPS)),
      pruneOldest_eq_drop (l ++ xs), List.drop_drop]
    congr 1
    simp only [List.length_drop, List.length_append]
    omega

/-- The cascade of per-write rotations, starting from backup directory
`bs`, over the list of files copied in (oldest first). -/
def rotFold (bs : List Doc) (xs : List Doc) : List Doc :=
  xs.foldl (fun acc b => pruneOldest (acc ++ [b])) bs

/-- Rotating one file at a time equals appending them all and pruning
once, as long as the directory starts within the limit. -/
lemma rotFold_eq :
    ∀ (xs bs : List Doc), bs.length ≤ Config.MAX_BACKUPS →
      rotFold bs xs = pruneOldest (bs ++ xs) := by
  intro xs
  induction xs with
  | nil =>
    intro bs h
    rw [rotFold, List.foldl_nil, List.append_nil, pruneOldest_eq_drop]
    have : bs.length - Config.MAX_BACKUPS = 0 := by omega
    rw [this, List.drop_zero]
  | cons x xs ih =>
    intro bs h
    rw [rotFold, List.foldl_cons]
    have step := ih (pruneOldest (bs ++ [x])) (pruneOldest_length_le _)
    rw [rotFold] at step
    rw [step, pruneOldest_pruneOldest_append]
    rw [List.append_assoc, List.singleton_append]

/-- The files `_create_backup` copies into the backup directory during a
sequence of saves, oldest first: before each write, the then-current data
file. -/
def addedBackups (f0 : Doc) : List Store → List Doc
  | [] => []
  | d :: ds => f0 :: addedBackups (Doc.valid d) ds

/-- The copies made during `saveSeq` are the data-file states before each
write: the initial file, then each written document except the last. -/
lemma addedBackups_eq :
    ∀ (ds : List Store) (f0 : Doc),
      addedBackups f0 ds = (f0 :: ds.map Doc.valid).dropLast := by
  intro ds
  induction ds with
  | nil => intro f0; rfl
  | cons d ds ih =>
    intro f0
    rw [addedBackups, ih (Doc.valid d)]
    rw [List.map_cons]
    rfl

/-- What a sequence of saves leaves in the backup directory: the rotation
cascade over the files copied in. -/
lemma saveSeq_backups :
    ∀ (ds : List Store) (f0 : Doc) (bs : List Doc),
      (saveSeq { file := some f0, backups := bs } ds).backups
        = rotFold bs (addedBackups f0 ds) := by
  intro ds
  induction ds with
  | nil => intro f0 bs; rfl
  | cons d ds ih =>
    intro f0 bs
    rw [saveSeq]
    have hsave : save { file := some f0, backups := bs } d
        = { file := some (Doc.valid d), backups := pruneOldest (bs ++ [f0]) } := rfl
    rw [hsave, ih]
    rfl

/-- C5: starting from an existing data file and an empty backup
directory, after `N` writes with `N` above the retention limit
(`Config.MAX_BACKUPS = 15`), the backup directory holds exactly
`MAX_BACKUPS` files, and they are the `MAX_BACKUPS` most recent backups
by creation order — the older ones were deleted oldest-first. -/
theorem c5_backup_retention :
    ∀ (f0 : Doc) (ds : List Store), Config.MAX_BACKUPS < ds.length →
      (saveSeq { file := some f0, backups := [] } ds).backups
          = ((f0 :: ds.map Doc.valid).dropLast).drop
              (ds.length - Config.MAX_BACKUPS) ∧
      ((saveSeq { file := some f0, backups := [] } ds).backups).length
          = Config.MAX_BACKUPS := by
  intro f0 ds h
  have hlen : ((f0 :: ds.map Doc.valid).dropLast).length = ds.length := by
    rw [List.length_dropLast, List.length_cons, List.length_map]
    omega
  have hb : (saveSeq { file := some f0, backups := [] } ds).backups
      = ((f0 :: ds.map Doc.valid).dropLast).drop
          (ds.length - Config.MAX_BACKUPS) := by
    rw [saveSeq_backups, addedBackups_eq, rotFold_eq _ [] (by simp),
      List.nil_append, pruneOldest_eq_drop, hlen]
  refine ⟨hb, ?_⟩
  rw [hb, List.length_drop, hlen]
  omega

/-- A concrete run of sixteen writes for the retention witness. -/
def c5_writes : List Store :=
  (List.range 16).map (fun i => default_schema (toString i))

/-- C5 (witness): sixteen writes exceed the limit of fifteen, and exactly
fifteen backups remain. -/
theorem c5_backup_retention_witness :
    Config.MAX_BACKUPS < c5_writes.length ∧
    ((saveSeq { file := some (Doc.valid (default_schema "start")), backups := [] }
        c5_writes).backups).length = Config.MAX_BACKUPS :=
  ⟨by decide,
    (c5_backup_retention (Doc.valid (default_schema "start")) c5_writes (by decide)).2⟩

/-! ## Claim C6: negative price rejected -/

/-- The product record `add_product` appends. -/
def newProduct (vn nm cat : String) (price : Int) (img pid ts : String) :
    Product :=
  { id := pid, vendor := vn, name := nm, category := cat, price := price,
    image := img, active := true, created_at := ts }

/-- C6: `add_product` with a negative price fails with
`ValidationError("Price cannot be negative.")` — the raise happens before
the store is even loaded, so no product is appended and nothing is
persisted — while with a non-negative price the validation branch is not
taken and exactly the new product is appended. -/
theorem c6_negative_price :
    ∀ (s : Store) (vn nm cat : String) (price : Int) (img pid ts : String),
      (price < 0 →
        add_product s vn nm cat price img pid ts
          = Except.error (NukrError.validationError "Price cannot be negative.")) ∧
      (0 ≤ price →
        add_product s vn nm cat price img pid ts
          = Except.ok { s with products :=
              s.products ++ [newProduct vn nm cat price img pid ts] }) := by
  intro s vn nm cat price img pid ts
  constructor
  · intro h
    unfold add_product
    rw [if_pos h]
  · intro h
    unfold add_product
    rw [if_neg (by omega)]
    rfl

/-- C6 (witness): the rejection clause at price `-10`, and the acceptance
clause at price `500`, on the default store. -/
theorem c6_negative_price_witness :
    ((-10 : Int) < 0 ∧
      add_product (default_schema "t0") "Acme" "Mug" "Home Decor" (-10)
          "http://img" "p1" "t1"
        = Except.error (NukrError.validationError "Price cannot be negative.")) ∧
    ((0 : Int) ≤ 500 ∧
      add_product (default_schema "t0") "Acme" "Mug" "Home Decor" 500
          "http://img" "p1" "t1"
        = Except.ok { default_schema "t0" with products :=
            [newProduct "Acme" "Mug" "Home Decor" 500 "http://img" "p1" "t1"] }) :=
  ⟨⟨by decide,
      (c6_negative_price (default_schema "t0") "Acme" "Mug" "Home Decor" (-10)
        "http://img" "p1" "t1").1 (by decide)⟩,
    ⟨by decide,
      (c6_negative_price (default_schema "t0") "Acme" "Mug" "Home Decor" 500
        "http://img" "p1" "t1").2 (by decide)⟩⟩

/-! ## Claim C8: end-to-end scenario -/

/-- The product the scenario's `addProduct` call creates. -/
def c8_mug (pid t2 : String) : Product :=
  newProduct "Acme" "Mug" "Home Decor" 500 "http://img" pid t2

/-- The scenario's buyer. -/
def c8_customer : Customer :=
  { name := "Ali", phone := "0300-1234567", address := "..." }

/-- The scenario's payment choice: cash on delivery, no proof upload. -/
def c8_payment : PaymentMethod :=
  { type := "COD", proof_file := none }

/-- C8: from the empty default store,
`registerVendor("Acme","@acme","Bank: X")` succeeds, then
`addProduct("Acme","Mug","Home Decor",500,"http://img")` succeeds and
stores exactly the Mug, then `createOrder` on that product with customer
Ali and payment COD yields exactly one order, with status `"Pending"`
and snapshot price `500`, and `get_vendor_stats` for `"Acme"` reports
total sales 500, one order, one pending — whatever ids and timestamps
the environment supplies. -/
theorem c8_end_to_end :
    ∀ (vid pid oid t0 t1 t2 t3 : String),
      (add_vendor (default_schema t0) "Acme" "@acme" "Bank: X" vid t1).1 = true ∧
      ∃ s2 : Store,
        add_product (add_vendor (default_schema t0) "Acme" "@acme" "Bank: X" vid t1).2
            "Acme" "Mug" "Home Decor" 500 "http://img" pid t2 = Except.ok s2 ∧
        s2.products = [c8_mug pid t2] ∧
        (create_order s2 (c8_mug pid t2) c8_customer c8_payment oid t3).2.orders.map
            Order.status = ["Pending"] ∧
        (create_order s2 (c8_mug pid t2) c8_customer c8_payment oid t3).2.orders.map
            (fun o => o.product_snapshot.price) = [500] ∧
        get_vendor_stats
            (create_order s2 (c8_mug pid t2) c8_customer c8_payment oid t3).2 "Acme"
          = { sales := 500, count := 1, pending := 1 } := by
  intro vid pid oid t0 t1 t2 t3
  refine ⟨rfl, _, rfl, rfl, rfl, rfl, rfl⟩

/-! ## Claim C9: currency formatting -/

/-- C9 (counterexample): `format_currency` on the negative amount `-10`
does not return the zero-amount string — Python's `int(-10)` succeeds, so
the `except` branch is not taken and the minus-signed amount is rendered. -/
theorem c9_counterexample :
    format_currency (Amount.num (-10)) = "Rs. -10" ∧
    ("Rs. -10" : String) ≠ "Rs. 0" := by
  refine ⟨rfl, by decide⟩

/-- C9 (amended): `format_currency` is total (the embedding is a function,
mirroring the catch-all `except`); for non-negative integers it returns
the fixed currency prefix followed by the comma-grouped amount; for
NEGATIVE integers it returns the prefix followed by the minus-signed
comma-grouped amount — not the zero-amount string; only non-numeric
input (where `int(amount)` raises) yields the zero-amount string. -/
theorem c9_amended :
    (∀ n : Int, 0 ≤ n →
      format_currency (Amount.num n) = "Rs. " ++ natComma n.natAbs) ∧
    (∀ n : Int, n < 0 →
      format_currency (Amount.num n) = "Rs. -" ++ natComma n.natAbs ∧
      format_currency (Amount.num n) ≠ "Rs. 0") ∧
    format_currency Amount.nonNumeric = "Rs. 0" := by
  refine ⟨?_, ?_, rfl⟩
  · intro n h
    have hn : ¬ n < 0 := by omega
    apply String.ext
    simp [format_currency, intComma, hn, Config.CURRENCY_SYMBOL,
      String.data_append]
  · intro n h
    constructor
    · apply String.ext
      simp [format_currency, intComma, h, Config.CURRENCY_SYMBOL,
        String.data_append]
    · intro hcontra
      have h2 := congrArg String.data hcontra
      simp [format_currency, intComma, h, Config.CURRENCY_SYMBOL,
        String.data_append] at h2

/-- C9 (witness): the amended theorem at the concrete amounts `1500` and
`-10`, with the grouped rendering pinned down. -/
theorem c9_amended_witness :
    ((0 : Int) ≤ 1500 ∧
      format_currency (Amount.num 1500) = "Rs. " ++ natComma (1500 : Int).natAbs) ∧
    ((-10 : Int) < 0 ∧ format_currency (Amount.num (-10)) ≠ "Rs. 0") ∧
    format_currency (Amount.num 1500) = "Rs. 1,500" :=
  ⟨⟨by decide, c9_amended.1 1500 (by decide)⟩,
    ⟨by decide, (c9_amended.2.1 (-10) (by decide)).2⟩, rfl⟩

/-! ## Claim C10: no operation removes elements -/

/-- The soft-delete loop preserves the length of the product list. -/
lemma softDeleteList_length (pid : String) :
    ∀ l : List Product, (softDeleteList pid l).length = l.length := by
  intro l
  induction l with
  | nil => rfl
  | cons p rest ih =>
    cases hb : (p.id == pid) with
    | true => simp [softDeleteList, hb]
    | false => simp [softDeleteList, hb, ih]

/-- The soft-delete loop either changes nothing or rewrites exactly one
entry in place, clearing only its `active` flag. -/
lemma softDeleteList_shape (pid : String) :
    ∀ l : List Product, softDeleteList pid l = l ∨
      ∃ pre p post, l = pre ++ p :: post ∧
        softDeleteList pid l = pre ++ ({ p with active := false } :: post) := by
  intro l
  induction l with
  | nil => left; rfl
  | cons p rest ih =>
    cases hb : (p.id == pid) with
    | true =>
      right
      exact ⟨[], p, rest, rfl, by simp [softDeleteList, hb]⟩
    | false =>
      cases ih with
      | inl h =>
        left
        simp [softDeleteList, hb, h]
      | inr h =>
        obtain ⟨pre, q, post, hsplit, hres⟩ := h
        right
        exact ⟨p :: pre, q, post, by rw [hsplit]; rfl,
          by simp [softDeleteList, hb, hres]⟩

/-- With no matching id, the soft-delete loop is the identity. -/
lemma softDeleteList_absent (pid : String) :
    ∀ l : List Product, l.all (fun p => !(p.id == pid)) = true →
      softDeleteList pid l = l := by
  intro l
  induction l with
  | nil => intro _; rfl
  | cons p rest ih =>
    intro h
    rw [List.all_cons, Bool.and_eq_true] at h
    have hb : (p.id == pid) = false := by
      cases hv : (p.id == pid) with
      | true => rw [hv] at h; simp at h
      | false => rfl
    rw [softDeleteList, if_neg (by simp [hb]), ih h.2]

/-- C10: no domain operation ever removes an element from `vendors`,
`products` or `orders`: `add_vendor`, `add_product` and `create_order`
append at most one element to exactly one collection and copy the rest;
`update_order_status` (on success) and `soft_delete_product` preserve
every collection's length and rewrite at most the first matched entry in
place — the update touching only `status`/`history`, the soft delete only
the `active` flag — and `soft_delete_product` changes nothing at all when
the product id is absent. -/
theorem c10_no_removal :
    (∀ (s : Store) (nm insta bank vid ts : String),
      (add_vendor s nm insta bank vid ts).2.products = s.products ∧
      (add_vendor s nm insta bank vid ts).2.orders = s.orders ∧
      ((add_vendor s nm insta bank vid ts).2.vendors = s.vendors ∨
        (add_vendor s nm insta bank vid ts).2.vendors
          = s.vendors ++ [newVendor nm insta bank vid ts])) ∧
    (∀ (s : Store) (vn nm cat : String) (price : Int) (img pid ts : String)
        (s' : Store),
      add_product s vn nm cat price img pid ts = Except.ok s' →
      s'.vendors = s.vendors ∧ s'.orders = s.orders ∧
      s'.products = s.products ++ [newProduct vn nm cat price img pid ts]) ∧
    (∀ (s : Store) (p : Product) (c : Customer) (pm : PaymentMethod)
        (oid ts : String),
      (create_order s p c pm oid ts).2.vendors = s.vendors ∧
      (create_order s p c pm oid ts).2.products = s.products ∧
      (create_order s p c pm oid ts).2.orders = s.orders ++ [newOrder p c pm oid ts]) ∧
    (∀ (s : Store) (oid ns ts : String) (s' : Store),
      update_order_status s oid ns ts = Except.ok s' →
      s'.vendors = s.vendors ∧ s'.products = s.products ∧
      s'.orders.length = s.orders.length ∧
      ∃ pre o post, s.orders = pre ++ o :: post ∧
        s'.orders = pre ++
          ({ o with
              status := ns,
              history := o.history ++ [transitionEntry o.status ns ts] }
            :: post)) ∧
    (∀ (s : Store) (pid : String),
      (soft_delete_product s pid).vendors = s.vendors ∧
      (soft_delete_product s pid).orders = s.orders ∧
      (soft_delete_product s pid).products.length = s.products.length ∧
      ((soft_delete_product s pid).products = s.products ∨
        ∃ pre p post, s.products = pre ++ p :: post ∧
          (soft_delete_product s pid).products
            = pre ++ ({ p with active := false } :: post)) ∧
      (s.products.all (fun p => !(p.id == pid)) = true →
        soft_delete_product s pid = s)) := by
  refine ⟨?_, ?_, ?_, ?_, ?_⟩
  · intro s nm insta bank vid ts
    unfold add_vendor
    by_cases hc : s.vendors.any (fun v => strLower v.name == strLower nm) = true
    · rw [if_pos hc]
      exact ⟨rfl, rfl, Or.inl rfl⟩
    · rw [if_neg hc]
      exact ⟨rfl, rfl, Or.inr rfl⟩
  · intro s vn nm cat price img pid ts s' h
    unfold add_product at h
    by_cases hp : price < 0
    · rw [if_pos hp] at h
      exact absurd h (by simp)
    · rw [if_neg hp] at h
      injection h with h2
      subst h2
      exact ⟨rfl, rfl, rfl⟩
  · intro s p c pm oid ts
    exact ⟨rfl, rfl, rfl⟩
  · intro s oid ns ts s' h
    unfold update_order_status at h
    by_cases hr : (updateOrderList oid ns ts s.orders).2 = true
    · rw [if_pos hr] at h
      injection h with h2
      subst h2
      refine ⟨rfl, rfl, updateOrderList_length oid ns ts s.orders, ?_⟩
      exact updateOrderList_split oid ns ts s.orders hr
    · rw [if_neg hr] at h
      exact absurd h (by simp)
  · intro s pid
    refine ⟨rfl, rfl, softDeleteList_length pid s.products, ?_, ?_⟩
    · exact softDeleteList_shape pid s.products
    · intro h
      show { s with products := softDeleteList pid s.products } = s
      rw [softDeleteList_absent pid s.products h]

/-- A one-order store for the C10 witness. -/
def c10_order : Order :=
  { id := "o5", timestamp := "t",
    product_snapshot := { id := "p5", name := "Cap", price := 300, vendor := "Acme" },
    customer := { name := "B", phone := "0300-0000000", address := "a" },
    payment := { method := "COD", proof := none, is_verified := false },
    status := "Pending",
    history := ["h"] }

/-- The C10 witness store. -/
def c10_store : Store :=
  { default_schema "t0" with orders := [c10_order] }

/-- What updating `c10_store`'s order to `"Shipped"` produces. -/
def c10_store2 : Store :=
  { c10_store with orders :=
      [{ c10_order with
          status := "Shipped",
          history := c10_order.history ++ [transitionEntry "Pending" "Shipped" "t9"] }] }

/-- C10 (witness): the update clause at a concrete successful call, and
the soft-delete no-op clause at a concrete absent id. -/
theorem c10_no_removal_witness :
    update_order_status c10_store "o5" "Shipped" "t9" = Except.ok c10_store2 ∧
    (c10_store2.vendors = c10_store.vendors ∧
      c10_store2.products = c10_store.products ∧
      c10_store2.orders.length = c10_store.orders.length ∧
      ∃ pre o post, c10_store.orders = pre ++ o :: post ∧
        c10_store2.orders = pre ++
          ({ o with
              status := "Shipped",
              history := o.history ++ [transitionEntry o.status "Shipped" "t9"] }
            :: post)) ∧
    ((default_schema "t0").products.all (fun p => !(p.id == "p9")) = true ∧
      soft_delete_product (default_schema "t0") "p9" = default_schema "t0") :=
  ⟨rfl, c10_no_removal.2.2.2.1 c10_store "o5" "Shipped" "t9" c10_store2 rfl,
    ⟨rfl, (c10_no_removal.2.2.2.2 (default_schema "t0") "p9").2.2.2.2 rfl⟩⟩

end Nukr
